import Mathlib

/-!
Verification development for the NamedPipe library (Krzmbrzl/NamedPipe),
POSIX backend of `src/NamedPipe.cpp` plus the platform-independent parts of
the `npipe::NamedPipe` facade.

The embedding models:
  * the exception taxonomy (`PipeError`): TimeoutException, InterruptException,
    PipeException<code>(context);
  * the object state (`PipeState`): `m_pipePath` and the atomic `m_break` flag
    (on Windows additionally the retained handle, `WinPipeState`);
  * the POSIX `write` open-retry loop and the single `::write` call;
  * the POSIX `read_blocking` poll/wait loop, the drain loop reading chunks of
    `PIPE_BUFFER_SIZE = 256` bytes, and the final EAGAIN check;
  * `destroy`, `interrupt`, `getPath`, `operator bool`, and the move operations.

Timeouts are `Int` (std::chrono::milliseconds is a signed count); both poll
intervals (`PIPE_WAIT_INTERVAL`, `PIPE_WRITE_WAIT_INTERVAL`) are 1 ms.
Environment behaviour (whether an `::open` attempt succeeds, whether data is
readable, the `::write` return value) is passed in as explicit schedules, so a
single pure function captures every run of the corresponding loop.
-/

namespace NPipe

/-- A byte, as transported through the pipe (`std::byte`). -/
abbrev Byte := Fin 256

/-- `PIPE_BUFFER_SIZE` from NamedPipe.cpp. -/
def PIPE_BUFFER_SIZE : Nat := 256

/-- The exception taxonomy of the library: `TimeoutException`,
`InterruptException` and `PipeException<code>(code, context)`. -/
inductive PipeError where
  | timeout
  | interrupt
  | os (code : Int) (context : String)
deriving DecidableEq, Repr

/-- POSIX `EAGAIN` (value on Linux; only its identity matters). -/
def EAGAIN : Int := 11

/-- Context label used by the read drain check. -/
def ctxRead : String := "Read"

/-- Context label used by the write error check. -/
def ctxWrite : String := "Write"

/-- The platform-independent state of an `npipe::NamedPipe` object on POSIX:
`m_pipePath` and the atomic `m_break` flag. -/
structure PipeState where
  path : String
  brk : Bool
deriving DecidableEq, Repr

/--
The POSIX wait loop of `read_blocking`:

  while (::poll(...) != -1 && !(pollData.revents & POLLIN)) {
    if (m_break) { throw InterruptException(); }
    if (timeout > PIPE_WAIT_INTERVAL) { timeout -= PIPE_WAIT_INTERVAL; }
    else { throw TimeoutException(); }
  }

`ready j` tells whether the `j`-th `::poll` reports `POLLIN`; `brk j` is the
value of `m_break` observed in the `j`-th loop body.  `none` means the loop
exited normally (data readable); `some e` means exception `e` was thrown.
`::poll` itself is assumed not to fail (it never does on a valid fd).
-/
def readWaitLoop (ready brk : Nat → Bool) (i : Nat) (timeout : Int) :
    Option PipeError :=
  if ready i then none
  else if brk i then some .interrupt
  else if timeout > 1 then readWaitLoop ready brk (i + 1) (timeout - 1)
  else some .timeout
termination_by timeout.toNat
decreasing_by simp_wf; omega

/-- Number of executions of the wait-loop body (one `::poll` plus the interrupt
and budget checks) in a run of `readWaitLoop`. -/
def readWaitIters (ready brk : Nat → Bool) (i : Nat) (timeout : Int) : Nat :=
  if ready i then 0
  else if brk i then 1
  else if timeout > 1 then 1 + readWaitIters ready brk (i + 1) (timeout - 1)
  else 1
termination_by timeout.toNat
decreasing_by simp_wf; omega

/-- The successive values of the timeout budget observed by the wait-loop body
(one entry per body execution). -/
def readWaitBudgets (ready brk : Nat → Bool) (i : Nat) (timeout : Int) :
    List Int :=
  if ready i then []
  else if brk i then [timeout]
  else if timeout > 1 then timeout :: readWaitBudgets ready brk (i + 1) (timeout - 1)
  else [timeout]
termination_by timeout.toNat
decreasing_by simp_wf; omega

/--
The POSIX open-retry loop of `write`:

  do {
    handle = handle_t(::open(pipePath.c_str(), O_WRONLY | O_NONBLOCK), &::close);
    if (!handle) {
      if (timeout > PIPE_WRITE_WAIT_INTERVAL) {
        timeout -= PIPE_WRITE_WAIT_INTERVAL;
        std::this_thread::sleep_for(PIPE_WRITE_WAIT_INTERVAL);
      } else { throw TimeoutException(); }
    }
  } while (!handle);

`openOk j` tells whether the `j`-th `::open` attempt succeeds.  `some j` means
the loop exits with the handle obtained on attempt `j`; `none` means
`TimeoutException` was thrown.
-/
def writeOpenLoop (openOk : Nat → Bool) (attempt : Nat) (timeout : Int) :
    Option Nat :=
  if openOk attempt then some attempt
  else if timeout > 1 then writeOpenLoop openOk (attempt + 1) (timeout - 1)
  else none
termination_by timeout.toNat
decreasing_by simp_wf; omega

/-- Number of executions of the open-retry loop body (one `::open` attempt per
body execution; a do-while loop, so at least one). -/
def writeOpenIters (openOk : Nat → Bool) (attempt : Nat) (timeout : Int) : Nat :=
  if openOk attempt then 1
  else if timeout > 1 then 1 + writeOpenIters openOk (attempt + 1) (timeout - 1)
  else 1
termination_by timeout.toNat
decreasing_by simp_wf; omega

/-- The successive values of the timeout budget consulted by the open-retry
loop (the budget is only looked at after a failed attempt). -/
def writeOpenBudgets (openOk : Nat → Bool) (attempt : Nat) (timeout : Int) :
    List Int :=
  if openOk attempt then []
  else if timeout > 1 then timeout :: writeOpenBudgets openOk (attempt + 1) (timeout - 1)
  else [timeout]
termination_by timeout.toNat
decreasing_by simp_wf; omega

/-- Outcome of one `::read` call: `bytes n` for a return value `n >= 0`,
`failed e` for a return value of `-1` with `errno = e` (per POSIX, `::read`
returns `-1` on failure, never any other negative value). -/
inductive ReadResult where
  | bytes (n : Nat)
  | failed (errno : Int)
deriving DecidableEq, Repr

/--
The drain loop of POSIX `read_blocking`, with fuel (the list length bounds the
number of iterations, since every chunk read is non-empty):

  while ((readBytes = ::read(handle, buffer.data(), PIPE_BUFFER_SIZE)) > 0) {
    message.insert(message.end(), buffer.begin(), buffer.begin() + readBytes);
  }

Each `::read` on a non-blocking FIFO returns the first
`min PIPE_BUFFER_SIZE (available)` bytes of the available data.
-/
def drainAux : Nat → List Byte → List Byte
  | _, [] => []
  | 0, _ :: _ => []
  | fuel + 1, b :: rest =>
    (b :: rest).take PIPE_BUFFER_SIZE ++ drainAux fuel ((b :: rest).drop PIPE_BUFFER_SIZE)

/-- Accumulated message produced by the drain loop on pipe content `l`. -/
def drainLoop (l : List Byte) : List Byte :=
  drainAux l.length l

/--
The check after the drain loop of POSIX `read_blocking`:

  if (readBytes == -1 && errno != EAGAIN) {
    throw PipeException< int >(errno, "Read");
  }
  return message;

`last` is the result of the final `::read` (the one that ended the loop, so
either `bytes 0` or `failed e`), `msg` the accumulated message.
-/
def finishRead (last : ReadResult) (msg : List Byte) :
    Except PipeError (List Byte) :=
  match last with
  | .bytes _ => .ok msg
  | .failed e => if e ≠ EAGAIN then .error (.os e ctxRead) else .ok msg

namespace NamedPipe

/--
POSIX `NamedPipe::read_blocking(timeout)` on a pipe whose available content is
`buffer` for the whole call (the single-message scenario: the writer's data, if
any, is in the FIFO before the reader drains).  `writerClosed` tells whether
the write end has been closed (final `::read` returns `0`) or is still open
(final `::read` fails with `EAGAIN`); `brk` is the value of `m_break`.
`::poll` reports `POLLIN` exactly when data is available.  The initial
`::open` of the FIFO is assumed to succeed (the pipe exists).
-/
def read_blocking (buffer : List Byte) (writerClosed : Bool) (brk : Bool)
    (timeout : Int) : Except PipeError (List Byte) :=
  match readWaitLoop (fun _ => !buffer.isEmpty) (fun _ => brk) 0 timeout with
  | some e => .error e
  | none =>
    finishRead (if writerClosed then .bytes 0 else .failed EAGAIN) (drainLoop buffer)

/--
POSIX static `NamedPipe::write(pipePath, message, messageSize, timeout)`:
the open-retry loop followed by the single `::write`.  `openOk` is the
environment's schedule of open successes, `writeRes` the return value of the
one `::write` call (if reached) and `wErrno` the `errno` it sets on failure.
The second component counts how many `::write` calls were issued.
-/
def write (openOk : Nat → Bool) (messageSize : Nat) (writeRes : Int)
    (wErrno : Int) (timeout : Int) : Except PipeError Unit × Nat :=
  match writeOpenLoop openOk 0 timeout with
  | none => (.error .timeout, 0)
  | some _ =>
    if writeRes < 0 then (.error (.os wErrno ctxWrite), 1) else (.ok (), 1)

/-- Content of an (initially empty) FIFO after a successful non-blocking
`::write` of the whole byte range `B` (the modelled delivery of one message). -/
def fifoAfterWrite (B : List Byte) : List Byte := B

/-- `NamedPipe::interrupt()`: `m_break.store(true)`. -/
def interrupt (s : PipeState) : PipeState := { s with brk := true }

/-- `NamedPipe::getPath()`: returns `m_pipePath`. -/
def getPath (s : PipeState) : String := s.path

/-- `NamedPipe::operator bool()`: `!m_pipePath.empty()`. -/
def isValid (s : PipeState) : Bool := !s.path.isEmpty

end NamedPipe

/-- Observable actions of `NamedPipe::destroy()` (POSIX), in program order:
the `m_break.store(true)`, the `std::filesystem::remove` of the FIFO entry,
the best-effort `std::cerr` diagnostic on a failed remove, and the
`m_pipePath.clear()`. -/
inductive DestroyEvent where
  | setFlag
  | removeEntry (p : String)
  | removeDiagnostic
  | clearPath
deriving DecidableEq, Repr

namespace NamedPipe

/--
POSIX `NamedPipe::destroy()` (also run by the destructor):

  m_break.store(true);
  if (!m_pipePath.empty()) {
    std::error_code errorCode;
    std::filesystem::remove(m_pipePath, errorCode);
    if (errorCode) { std::cerr << ...; }
    m_pipePath.clear();
  }

`removeFails` tells whether `std::filesystem::remove` reports an error.  The
function is total and its result type carries no exception: `destroy` never
throws.  The returned list is the trace of observable actions, in order.
-/
def destroy (removeFails : Bool) (s : PipeState) : PipeState × List DestroyEvent :=
  if !s.path.isEmpty then
    (⟨"", true⟩,
      [DestroyEvent.setFlag, DestroyEvent.removeEntry s.path]
        ++ (if removeFails then [DestroyEvent.removeDiagnostic] else [])
        ++ [DestroyEvent.clearPath])
  else ({ s with brk := true }, [DestroyEvent.setFlag])

/--
POSIX `NamedPipe::NamedPipe(NamedPipe &&other)`:

  : m_pipePath(std::move(other.m_pipePath)) { other.m_pipePath.clear(); }

The destination's `m_break` is default-initialized to `false`; the source's
`m_break` is not touched.  Result: (destination, source after the move).
-/
def moveConstruct (other : PipeState) : PipeState × PipeState :=
  (⟨other.path, false⟩, ⟨"", other.brk⟩)

/--
POSIX `NamedPipe::operator=(NamedPipe &&other)`:

  m_pipePath = std::move(other.m_pipePath);
  other.m_pipePath.clear();

Neither object's `m_break` is touched.  Result: (target after assignment,
source after the move).
-/
def moveAssign (target other : PipeState) : PipeState × PipeState :=
  (⟨other.path, target.brk⟩, ⟨"", other.brk⟩)

end NamedPipe

/-- Windows `INVALID_HANDLE_VALUE`, as an abstract handle sentinel. -/
def INVALID_HANDLE_VALUE : Int := -1

/-- State of an `npipe::NamedPipe` on Windows: `m_pipePath`, `m_break` and the
retained pipe handle `m_handle`. -/
structure WinPipeState where
  path : String
  brk : Bool
  handle : Int
deriving DecidableEq, Repr

namespace NamedPipe

/--
Windows `NamedPipe::NamedPipe(NamedPipe &&other)`:

  : m_pipePath(std::move(other.m_pipePath)), m_handle(other.m_handle) {
    other.m_pipePath.clear();
    other.m_handle = INVALID_HANDLE_VALUE;
  }

The destination's `m_break` is default-initialized to `false`; the source's
`m_break` is not touched.
-/
def winMoveConstruct (other : WinPipeState) : WinPipeState × WinPipeState :=
  (⟨other.path, false, other.handle⟩, ⟨"", other.brk, INVALID_HANDLE_VALUE⟩)

/--
Windows `NamedPipe::operator=(NamedPipe &&other)`:

  m_pipePath = std::move(other.m_pipePath);
  m_handle   = other.m_handle;
  m_break.store(other.m_break.load());
  other.m_break.store(true);
  other.m_pipePath.clear();
  other.m_handle = INVALID_HANDLE_VALUE;

Note the source's `m_break` is set to `true`, not cleared.
-/
def winMoveAssign (target other : WinPipeState) : WinPipeState × WinPipeState :=
  (⟨other.path, other.brk, other.handle⟩, ⟨"", true, INVALID_HANDLE_VALUE⟩)

end NamedPipe

/-! ### Helper lemmas about the loop embeddings -/

/-- With no data ever readable and the interrupt flag never observed set, the
wait loop of `read_blocking` throws `TimeoutException` (fuel-indexed form). -/
theorem readWaitLoop_noready_aux (ready brk : Nat → Bool)
    (h1 : ∀ j, ready j = false) (h2 : ∀ j, brk j = false) :
    ∀ (n : Nat) (T : Int), T.toNat ≤ n → ∀ i,
      readWaitLoop ready brk i T = some PipeError.timeout := by
  intro n
  induction n with
  | zero =>
    intro T hT i
    unfold readWaitLoop
    simp [h1, h2]
    omega
  | succ n ih =>
    intro T hT i
    unfold readWaitLoop
    simp [h1, h2]
    intro hT1
    exact ih (T - 1) (by omega) (i + 1)

/-- With no data ever readable and the interrupt flag never observed set, the
wait loop of `read_blocking` throws `TimeoutException`, for every timeout. -/
theorem readWaitLoop_noready (ready brk : Nat → Bool)
    (h1 : ∀ j, ready j = false) (h2 : ∀ j, brk j = false) (i : Nat) (T : Int) :
    readWaitLoop ready brk i T = some PipeError.timeout :=
  readWaitLoop_noready_aux ready brk h1 h2 T.toNat T le_rfl i

/-- In an iteration with no data readable and the interrupt flag observed set,
the wait loop throws `InterruptException` — whatever the remaining budget. -/
theorem readWaitLoop_brk (ready brk : Nat → Bool) (i : Nat)
    (h1 : ready i = false) (h2 : brk i = true) (T : Int) :
    readWaitLoop ready brk i T = some PipeError.interrupt := by
  unfold readWaitLoop
  simp [h1, h2]

/-- When data is readable at the first poll, the wait loop exits normally. -/
theorem readWaitLoop_ready (ready brk : Nat → Bool) (i : Nat)
    (h1 : ready i = true) (T : Int) :
    readWaitLoop ready brk i T = none := by
  unfold readWaitLoop
  simp [h1]

/-- The drain loop returns the whole pipe content, given enough fuel. -/
theorem drainAux_of_le : ∀ (fuel : Nat) (l : List Byte), l.length ≤ fuel →
    drainAux fuel l = l := by
  intro fuel
  induction fuel with
  | zero =>
    intro l hl
    cases l with
    | nil => rfl
    | cons b rest => simp at hl
  | succ fuel ih =>
    intro l hl
    cases l with
    | nil => rfl
    | cons b rest =>
      show (b :: rest).take PIPE_BUFFER_SIZE
          ++ drainAux fuel ((b :: rest).drop PIPE_BUFFER_SIZE) = b :: rest
      rw [ih ((b :: rest).drop PIPE_BUFFER_SIZE)
        (by simp [PIPE_BUFFER_SIZE] at hl ⊢; omega)]
      exact List.take_append_drop _ _

/-- The drain loop accumulates exactly the pipe's content. -/
theorem drainLoop_eq (l : List Byte) : drainLoop l = l :=
  drainAux_of_le l.length l le_rfl

/-- If every `::open` attempt fails, the open-retry loop of `write` throws
`TimeoutException` (fuel-indexed form). -/
theorem writeOpenLoop_none_aux (openOk : Nat → Bool)
    (h : ∀ j, openOk j = false) :
    ∀ (n : Nat) (T : Int), T.toNat ≤ n → ∀ a,
      writeOpenLoop openOk a T = none := by
  intro n
  induction n with
  | zero =>
    intro T hT a
    unfold writeOpenLoop
    simp [h]
    omega
  | succ n ih =>
    intro T hT a
    unfold writeOpenLoop
    simp [h]
    intro hT1
    exact ih (T - 1) (by omega) (a + 1)

/-- If every `::open` attempt fails, the open-retry loop of `write` throws
`TimeoutException`, for every timeout. -/
theorem writeOpenLoop_none (openOk : Nat → Bool)
    (h : ∀ j, openOk j = false) (a : Nat) (T : Int) :
    writeOpenLoop openOk a T = none :=
  writeOpenLoop_none_aux openOk h T.toNat T le_rfl a

/-- The wait loop of `read_blocking` executes its body at most
`max timeout 1` times (fuel-indexed form). -/
theorem readWaitIters_le_aux (ready brk : Nat → Bool) :
    ∀ (n : Nat) (T : Int), T.toNat ≤ n → ∀ i,
      readWaitIters ready brk i T ≤ max T.toNat 1 := by
  intro n
  induction n with
  | zero =>
    intro T hT i
    unfold readWaitIters
    split
    · omega
    · split
      · omega
      · split
        · omega
        · omega
  | succ n ih =>
    intro T hT i
    unfold readWaitIters
    split
    · omega
    · split
      · omega
      · split
        · have := ih (T - 1) (by omega) (i + 1)
          omega
        · omega

/-- The wait loop of `read_blocking` executes its body at most
`max timeout 1` times. -/
theorem readWaitIters_le (ready brk : Nat → Bool) (i : Nat) (T : Int) :
    readWaitIters ready brk i T ≤ max T.toNat 1 :=
  readWaitIters_le_aux ready brk T.toNat T le_rfl i

/-- The open-retry loop of `write` executes its body at most `max timeout 1`
times (fuel-indexed form). -/
theorem writeOpenIters_le_aux (openOk : Nat → Bool) :
    ∀ (n : Nat) (T : Int), T.toNat ≤ n → ∀ a,
      writeOpenIters openOk a T ≤ max T.toNat 1 := by
  intro n
  induction n with
  | zero =>
    intro T hT a
    unfold writeOpenIters
    split
    · omega
    · split
      · omega
      · omega
  | succ n ih =>
    intro T hT a
    unfold writeOpenIters
    split
    · omega
    · split
      · have := ih (T - 1) (by omega) (a + 1)
        omega
      · omega

/-- The open-retry loop of `write` executes its body at most `max timeout 1`
times. -/
theorem writeOpenIters_le (openOk : Nat → Bool) (a : Nat) (T : Int) :
    writeOpenIters openOk a T ≤ max T.toNat 1 :=
  writeOpenIters_le_aux openOk T.toNat T le_rfl a

/-- Prepending the current budget to a trace of once-decremented budgets gives
a trace of step-one decrements starting at the current budget. -/
theorem budget_cons_map (T : Int) (L : List Int)
    (h : L = (List.range L.length).map (fun (k : Nat) => (T - 1) - (k : Int))) :
    T :: L = (List.range (T :: L).length).map (fun (k : Nat) => T - (k : Int)) := by
  conv_lhs => rw [h]
  rw [List.length_cons, List.range_succ_eq_map, List.map_cons, List.map_map]
  refine List.cons_eq_cons.mpr ⟨by simp, ?_⟩
  refine List.map_congr_left ?_
  intro k _
  simp only [Function.comp_apply]
  push_cast
  ring

/-- The budgets observed by the wait loop decrease from the initial timeout in
steps of exactly one poll interval (fuel-indexed form). -/
theorem readWaitBudgets_map_aux (ready brk : Nat → Bool) :
    ∀ (n : Nat) (T : Int), T.toNat ≤ n → ∀ i,
      readWaitBudgets ready brk i T
        = (List.range (readWaitBudgets ready brk i T).length).map
            (fun (k : Nat) => T - (k : Int)) := by
  intro n
  induction n with
  | zero =>
    intro T hT i
    unfold readWaitBudgets
    split
    · simp
    · split
      · simp [List.range_succ]
      · split
        · omega
        · simp [List.range_succ]
  | succ n ih =>
    intro T hT i
    unfold readWaitBudgets
    split
    · simp
    · split
      · simp [List.range_succ]
      · split
        · exact budget_cons_map T _ (ih (T - 1) (by omega) (i + 1))
        · simp [List.range_succ]

/-- The budgets observed by the wait loop decrease from the initial timeout in
steps of exactly one poll interval. -/
theorem readWaitBudgets_map (ready brk : Nat → Bool) (i : Nat) (T : Int) :
    readWaitBudgets ready brk i T
      = (List.range (readWaitBudgets ready brk i T).length).map
          (fun (k : Nat) => T - (k : Int)) :=
  readWaitBudgets_map_aux ready brk T.toNat T le_rfl i

/-- Every budget value observed by the wait loop is non-negative whenever the
call starts with a non-negative timeout (fuel-indexed form). -/
theorem readWaitBudgets_nonneg_aux (ready brk : Nat → Bool) :
    ∀ (n : Nat) (T : Int), T.toNat ≤ n → 0 ≤ T → ∀ i,
      ∀ b ∈ readWaitBudgets ready brk i T, 0 ≤ b := by
  intro n
  induction n with
  | zero =>
    intro T hT h0 i b hb
    unfold readWaitBudgets at hb
    split at hb
    · simp at hb
    · split at hb
      · simp at hb; omega
      · split at hb
        · omega
        · simp at hb; omega
  | succ n ih =>
    intro T hT h0 i b hb
    unfold readWaitBudgets at hb
    split at hb
    · simp at hb
    · split at hb
      · simp at hb; omega
      · split at hb
        · rcases List.mem_cons.mp hb with hb | hb
          · omega
          · exact ih (T - 1) (by omega) (by omega) (i + 1) b hb
        · simp at hb; omega

/-- Every budget value observed by the wait loop is non-negative whenever the
call starts with a non-negative timeout. -/
theorem readWaitBudgets_nonneg (ready brk : Nat → Bool) (i : Nat) (T : Int)
    (h0 : 0 ≤ T) : ∀ b ∈ readWaitBudgets ready brk i T, 0 ≤ b :=
  readWaitBudgets_nonneg_aux ready brk T.toNat T le_rfl h0 i

/-- The budgets consulted by the open-retry loop decrease from the initial
timeout in steps of exactly one poll interval (fuel-indexed form). -/
theorem writeOpenBudgets_map_aux (openOk : Nat → Bool) :
    ∀ (n : Nat) (T : Int), T.toNat ≤ n → ∀ a,
      writeOpenBudgets openOk a T
        = (List.range (writeOpenBudgets openOk a T).length).map
            (fun (k : Nat) => T - (k : Int)) := by
  intro n
  induction n with
  | zero =>
    intro T hT a
    unfold writeOpenBudgets
    split
    · simp
    · split
      · omega
      · simp [List.range_succ]
  | succ n ih =>
    intro T hT a
    unfold writeOpenBudgets
    split
    · simp
    · split
      · exact budget_cons_map T _ (ih (T - 1) (by omega) (a + 1))
      · simp [List.range_succ]

/-- The budgets consulted by the open-retry loop decrease from the initial
timeout in steps of exactly one poll interval. -/
theorem writeOpenBudgets_map (openOk : Nat → Bool) (a : Nat) (T : Int) :
    writeOpenBudgets openOk a T
      = (List.range (writeOpenBudgets openOk a T).length).map
          (fun (k : Nat) => T - (k : Int)) :=
  writeOpenBudgets_map_aux openOk T.toNat T le_rfl a

/-- Every budget value consulted by the open-retry loop is non-negative
whenever the call starts with a non-negative timeout (fuel-indexed form). -/
theorem writeOpenBudgets_nonneg_aux (openOk : Nat → Bool) :
    ∀ (n : Nat) (T : Int), T.toNat ≤ n → 0 ≤ T → ∀ a,
      ∀ b ∈ writeOpenBudgets openOk a T, 0 ≤ b := by
  intro n
  induction n with
  | zero =>
    intro T hT h0 a b hb
    unfold writeOpenBudgets at hb
    split at hb
    · simp at hb
    · split at hb
      · omega
      · simp at hb; omega
  | succ n ih =>
    intro T hT h0 a b hb
    unfold writeOpenBudgets at hb
    split at hb
    · simp at hb
    · split at hb
      · rcases List.mem_cons.mp hb with hb | hb
        · omega
        · exact ih (T - 1) (by omega) (by omega) (a + 1) b hb
      · simp at hb; omega

/-- Every budget value consulted by the open-retry loop is non-negative
whenever the call starts with a non-negative timeout. -/
theorem writeOpenBudgets_nonneg (openOk : Nat → Bool) (a : Nat) (T : Int)
    (h0 : 0 ≤ T) : ∀ b ∈ writeOpenBudgets openOk a T, 0 ≤ b :=
  writeOpenBudgets_nonneg_aux openOk T.toNat T le_rfl h0 a

/-- A `String` is non-empty exactly when its `isEmpty` test is `false`. -/
theorem string_isEmpty_false_iff (s : String) : (s.isEmpty = false) ↔ s ≠ "" := by
  rw [← Bool.not_eq_true, String.isEmpty_iff]

/-- A byte sequence containing every value 0 through 255. -/
def allBytes : List Byte :=
  (List.range 256).map (fun n => ⟨n % 256, Nat.mod_lt n (by decide)⟩)

/-! ### Claims -/

/-- Claim C1, as stated, fails at the empty sequence: writing zero bytes puts
no data into the FIFO, so the reader's poll loop never sees `POLLIN` and
`read_blocking` raises `TimeoutException` instead of returning the empty
message (shown here with timeout 1; the wait loop can only end in an
exception when no data is ever readable). -/
theorem c1_roundtrip_counterexample :
    NamedPipe.read_blocking (NamedPipe.fifoAfterWrite []) true false 1
      = Except.error PipeError.timeout
    ∧ NamedPipe.read_blocking (NamedPipe.fifoAfterWrite []) true false 1
      ≠ Except.ok (NamedPipe.fifoAfterWrite []) := by
  have h : NamedPipe.read_blocking (NamedPipe.fifoAfterWrite []) true false 1
      = Except.error PipeError.timeout := by
    unfold NamedPipe.read_blocking NamedPipe.fifoAfterWrite
    rw [readWaitLoop_noready _ _ (fun j => by simp) (fun j => rfl) 0 1]
  exact ⟨h, by rw [h]; simp⟩

/-- Claim C1 (amended): for every non-empty byte sequence `B` (single bytes
and sequences containing every value 0 through 255 included), writing `B` and
then calling `read_blocking` on the other end yields exactly `B`, with the
same length and content; for the empty sequence the reader sees no data and
raises `TimeoutException`. -/
theorem c1_roundtrip (B : List Byte) (writerClosed brk : Bool) (T : Int)
    (hB : B ≠ []) :
    NamedPipe.read_blocking (NamedPipe.fifoAfterWrite B) writerClosed brk T
      = Except.ok B := by
  unfold NamedPipe.read_blocking NamedPipe.fifoAfterWrite
  rw [readWaitLoop_ready _ _ 0 (by simp [hB])]
  cases writerClosed <;> simp [finishRead, drainLoop_eq]

/-- Witness for C1: the round trip at a concrete message spanning all byte
values 0 through 255. -/
theorem c1_roundtrip_witness :
    allBytes ≠ []
    ∧ NamedPipe.read_blocking (NamedPipe.fifoAfterWrite allBytes) true false 500
        = Except.ok allBytes :=
  ⟨by decide, c1_roundtrip allBytes true false 500 (by decide)⟩

/-- Claim C2: at the end of the drain loop of POSIX `read_blocking`, a final
read failing with `EAGAIN` and a final read of zero bytes both end the message
normally; a final read failing with any other errno raises
`PipeException<int>(errno, "Read")`. -/
theorem c2_read_end_conditions (msg : List Byte) (e : Int) (he : e ≠ EAGAIN) :
    finishRead (ReadResult.failed EAGAIN) msg = Except.ok msg
    ∧ finishRead (ReadResult.bytes 0) msg = Except.ok msg
    ∧ finishRead (ReadResult.failed e) msg
        = Except.error (PipeError.os e ctxRead) :=
  ⟨by simp [finishRead], rfl, by simp [finishRead, he]⟩

/-- Witness for C2 at `errno = 5` (EIO) and the empty accumulated message. -/
theorem c2_read_end_conditions_witness :
    (5 : Int) ≠ EAGAIN
    ∧ (finishRead (ReadResult.failed EAGAIN) [] = Except.ok []
        ∧ finishRead (ReadResult.bytes 0) [] = Except.ok []
        ∧ finishRead (ReadResult.failed 5) []
            = Except.error (PipeError.os 5 ctxRead)) :=
  ⟨by decide, c2_read_end_conditions [] 5 (by decide)⟩

/-- Claim C3: with no data ever readable, `read_blocking` raises
`TimeoutException` for every timeout once the budget is exhausted by the fixed
poll increments; with the interrupt flag set it raises `InterruptException`
for every timeout, including an exhausted one; and in any poll iteration where
the flag is observed set (and no data is readable), the wait loop raises
`InterruptException` in that very iteration — the interrupt check precedes the
timeout check. -/
theorem c3_timeout_and_interrupt (writerClosed : Bool) (T : Int)
    (ready brkS : Nat → Bool) (i : Nat)
    (h1 : ready i = false) (h2 : brkS i = true) :
    NamedPipe.read_blocking [] writerClosed false T
      = Except.error PipeError.timeout
    ∧ NamedPipe.read_blocking [] writerClosed true T
      = Except.error PipeError.interrupt
    ∧ readWaitLoop ready brkS i T = some PipeError.interrupt := by
  refine ⟨?_, ?_, readWaitLoop_brk ready brkS i h1 h2 T⟩
  · unfold NamedPipe.read_blocking
    rw [readWaitLoop_noready _ _ (fun j => by simp) (fun j => rfl) 0 T]
  · unfold NamedPipe.read_blocking
    rw [readWaitLoop_brk _ _ 0 (by simp) rfl T]

/-- Witness for C3 at timeout 0 (exhausted budget) and iteration 3. -/
theorem c3_timeout_and_interrupt_witness :
    (fun _ : Nat => false) 3 = false
    ∧ (fun _ : Nat => true) 3 = true
    ∧ (NamedPipe.read_blocking [] true false 0 = Except.error PipeError.timeout
        ∧ NamedPipe.read_blocking [] true true 0
            = Except.error PipeError.interrupt
        ∧ readWaitLoop (fun _ => false) (fun _ => true) 3 0
            = some PipeError.interrupt) :=
  ⟨rfl, rfl, c3_timeout_and_interrupt true 0 (fun _ => false) (fun _ => true) 3 rfl rfl⟩

/-- Claim C4: if no `::open` attempt ever succeeds, `write` retries the
non-blocking open, decrementing the budget in fixed increments, and raises
`TimeoutException` with no `::write` ever issued; once an open succeeds,
exactly one `::write` is issued, and a negative write result raises
`PipeException<int>(errno, "Write")`. -/
theorem c4_write_timeout_and_write_error (openOk : Nat → Bool) (msz : Nat)
    (w e T : Int) :
    ((∀ j, openOk j = false) →
      NamedPipe.write openOk msz w e T = (Except.error PipeError.timeout, 0))
    ∧ (∀ j, writeOpenLoop openOk 0 T = some j →
        (NamedPipe.write openOk msz w e T).2 = 1
        ∧ (w < 0 →
            NamedPipe.write openOk msz w e T
              = (Except.error (PipeError.os e ctxWrite), 1))) := by
  constructor
  · intro h
    unfold NamedPipe.write
    rw [writeOpenLoop_none openOk h 0 T]
  · intro j hj
    unfold NamedPipe.write
    rw [hj]
    constructor
    · by_cases hw : w < 0 <;> simp [hw]
    · intro hw
      simp [hw]

/-- Witness for C4: a run where every open fails (timeout, no write issued)
and a run where the first open succeeds and the write fails with errno 5. -/
theorem c4_write_timeout_and_write_error_witness :
    (∀ j : Nat, (fun _ : Nat => false) j = false)
    ∧ writeOpenLoop (fun _ : Nat => true) 0 500 = some 0
    ∧ (-1 : Int) < 0
    ∧ NamedPipe.write (fun _ => false) 3 (-1) 5 500
        = (Except.error PipeError.timeout, 0)
    ∧ (NamedPipe.write (fun _ => true) 3 (-1) 5 500).2 = 1
    ∧ NamedPipe.write (fun _ => true) 3 (-1) 5 500
        = (Except.error (PipeError.os 5 ctxWrite), 1) := by
  have hopen : writeOpenLoop (fun _ : Nat => true) 0 500 = some 0 := by
    unfold writeOpenLoop; simp
  have h1 := (c4_write_timeout_and_write_error (fun _ => false) 3 (-1) 5 500).1
    (fun j => rfl)
  have h2 := (c4_write_timeout_and_write_error (fun _ => true) 3 (-1) 5 500).2
    0 hopen
  exact ⟨fun j => rfl, hopen, by decide, h1, h2.1, h2.2 (by decide)⟩

/-- Claim C5: on a valid object, `destroy` first sets the interrupt flag, then
removes the OS entry (with a failed removal reported only as a diagnostic),
then clears the path; the result is invalid, and any repeated `destroy`
(including the destructor's) only re-stores `true` into the already-set flag —
no OS action, no state change.  `destroy` is a total function into a state and
a trace, with no exception in its type: it never throws. -/
theorem c5_destroy_order_and_idempotence (removeFails removeFails2 : Bool)
    (s : PipeState) (h : s.path ≠ "") :
    NamedPipe.destroy removeFails s
      = (⟨"", true⟩,
          [DestroyEvent.setFlag, DestroyEvent.removeEntry s.path]
            ++ (if removeFails then [DestroyEvent.removeDiagnostic] else [])
            ++ [DestroyEvent.clearPath])
    ∧ NamedPipe.isValid (NamedPipe.destroy removeFails s).1 = false
    ∧ NamedPipe.destroy removeFails2 (NamedPipe.destroy removeFails s).1
        = ((NamedPipe.destroy removeFails s).1, [DestroyEvent.setFlag]) := by
  have h1 : NamedPipe.destroy removeFails s
      = (⟨"", true⟩,
          [DestroyEvent.setFlag, DestroyEvent.removeEntry s.path]
            ++ (if removeFails then [DestroyEvent.removeDiagnostic] else [])
            ++ [DestroyEvent.clearPath]) := by
    unfold NamedPipe.destroy
    rw [if_pos (by simp [(string_isEmpty_false_iff s.path).mpr h])]
  refine ⟨h1, ?_, ?_⟩
  · rw [h1]
    rfl
  · rw [h1]
    rfl

/-- Witness for C5 on the object wrapping path "p", with the removal failing
on the first call. -/
theorem c5_destroy_order_and_idempotence_witness :
    ("p" : String) ≠ ""
    ∧ (NamedPipe.destroy true ⟨"p", false⟩
        = (⟨"", true⟩,
            [DestroyEvent.setFlag, DestroyEvent.removeEntry ("p"),
              DestroyEvent.removeDiagnostic, DestroyEvent.clearPath])
      ∧ NamedPipe.isValid (NamedPipe.destroy true ⟨"p", false⟩).1 = false
      ∧ NamedPipe.destroy false (NamedPipe.destroy true ⟨"p", false⟩).1
          = ((NamedPipe.destroy true ⟨"p", false⟩).1, [DestroyEvent.setFlag])) := by
  have h := c5_destroy_order_and_idempotence true false ⟨"p", false⟩ (by decide)
  exact ⟨by decide, by simpa using h.1, h.2.1, h.2.2⟩

/-- Claim C6, as stated, is false: the POSIX move constructor leaves the
source's interrupt flag untouched, so moving from an interrupted object leaves
the source's flag set, not cleared. -/
theorem c6_move_counterexample :
    (NamedPipe.moveConstruct ⟨"p", true⟩).2.brk = true
    ∧ ¬ (NamedPipe.moveConstruct ⟨"p", true⟩).2.brk = false := by
  exact ⟨rfl, by decide⟩

/-- Claim C6 (amended): moving (by move construction or move assignment)
transfers the path (and, on Windows, the handle) to the destination and clears
the source's path, so the source is invalid with an empty `getPath`; the
source's interrupt flag however is not cleared — the POSIX moves leave it
unchanged, and the Windows move assignment sets it to `true`. -/
theorem c6_move_source_emptied (t o : PipeState) (wt wo : WinPipeState) :
    (NamedPipe.moveConstruct o).1.path = o.path
    ∧ (NamedPipe.moveConstruct o).2.path = ""
    ∧ NamedPipe.isValid (NamedPipe.moveConstruct o).2 = false
    ∧ NamedPipe.getPath (NamedPipe.moveConstruct o).2 = ""
    ∧ (NamedPipe.moveConstruct o).2.brk = o.brk
    ∧ (NamedPipe.moveAssign t o).1 = ⟨o.path, t.brk⟩
    ∧ (NamedPipe.moveAssign t o).2 = ⟨"", o.brk⟩
    ∧ (NamedPipe.winMoveConstruct wo).1 = ⟨wo.path, false, wo.handle⟩
    ∧ (NamedPipe.winMoveConstruct wo).2 = ⟨"", wo.brk, INVALID_HANDLE_VALUE⟩
    ∧ (NamedPipe.winMoveAssign wt wo).1 = ⟨wo.path, wo.brk, wo.handle⟩
    ∧ (NamedPipe.winMoveAssign wt wo).2 = ⟨"", true, INVALID_HANDLE_VALUE⟩ :=
  ⟨rfl, rfl, rfl, rfl, rfl, rfl, rfl, rfl, rfl, rfl, rfl⟩

/-- Claim C7, as stated, fails at timeout 0: with no data readable the wait
loop still executes its body once (poll, interrupt check, budget check, then
`TimeoutException`), but `ceil(0 / interval) = 0`. -/
theorem c7_iteration_bound_counterexample :
    readWaitIters (fun _ => false) (fun _ => false) 0 0 = 1
    ∧ ¬ (readWaitIters (fun _ => false) (fun _ => false) 0 0
          ≤ (0 : Int).toNat) := by
  have h : readWaitIters (fun _ => false) (fun _ => false) 0 0 = 1 := by
    unfold readWaitIters
    simp
  exact ⟨h, by rw [h]; decide⟩

/-- Claim C7 (amended): within a single call, both POSIX poll loops (the
write open-retry loop and the read readiness-wait loop) consume the timeout
budget only in fixed one-interval decrements starting from the initial
timeout, the budget never becomes negative, and each loop executes its body at
most `max (ceil (timeout / interval)) 1` times (the interval is 1 ms, so
`ceil (timeout / interval) = timeout.toNat`) — no wait in these loops is
unbounded. -/
theorem c7_budget_and_termination (ready brk openOk : Nat → Bool) (i a : Nat)
    (T : Int) (h : 0 ≤ T) :
    readWaitIters ready brk i T ≤ max T.toNat 1
    ∧ writeOpenIters openOk a T ≤ max T.toNat 1
    ∧ (∀ b ∈ readWaitBudgets ready brk i T, 0 ≤ b)
    ∧ (∀ b ∈ writeOpenBudgets openOk a T, 0 ≤ b)
    ∧ readWaitBudgets ready brk i T
        = (List.range (readWaitBudgets ready brk i T).length).map
            (fun (k : Nat) => T - (k : Int))
    ∧ writeOpenBudgets openOk a T
        = (List.range (writeOpenBudgets openOk a T).length).map
            (fun (k : Nat) => T - (k : Int)) :=
  ⟨readWaitIters_le ready brk i T, writeOpenIters_le openOk a T,
    readWaitBudgets_nonneg ready brk i T h, writeOpenBudgets_nonneg openOk a T h,
    readWaitBudgets_map ready brk i T, writeOpenBudgets_map openOk a T⟩

/-- Witness for C7 at timeout 500 with both loops making no progress. -/
theorem c7_budget_and_termination_witness :
    (0 : Int) ≤ 500
    ∧ (readWaitIters (fun _ => false) (fun _ => false) 0 500
          ≤ max (500 : Int).toNat 1
      ∧ writeOpenIters (fun _ => false) 0 500 ≤ max (500 : Int).toNat 1
      ∧ (∀ b ∈ readWaitBudgets (fun _ => false) (fun _ => false) 0 500, 0 ≤ b)
      ∧ (∀ b ∈ writeOpenBudgets (fun _ => false) 0 500, 0 ≤ b)
      ∧ readWaitBudgets (fun _ => false) (fun _ => false) 0 500
          = (List.range
              (readWaitBudgets (fun _ => false) (fun _ => false) 0 500).length).map
              (fun (k : Nat) => (500 : Int) - (k : Int))
      ∧ writeOpenBudgets (fun _ => false) 0 500
          = (List.range (writeOpenBudgets (fun _ => false) 0 500).length).map
              (fun (k : Nat) => (500 : Int) - (k : Int))) :=
  ⟨by decide,
    c7_budget_and_termination (fun _ => false) (fun _ => false) (fun _ => false)
      0 0 500 (by decide)⟩

/-- Claim C8: `interrupt()` always succeeds (it is a total store of `true`
into the flag, with no exception in its type) and is idempotent: any positive
number of calls leaves the object exactly as one call does, with the shared
flag set and the path untouched. -/
theorem c8_interrupt_idempotent (s : PipeState) (n : Nat) :
    NamedPipe.interrupt^[n + 1] s = NamedPipe.interrupt s
    ∧ (NamedPipe.interrupt s).brk = true
    ∧ (NamedPipe.interrupt s).path = s.path := by
  refine ⟨?_, rfl, rfl⟩
  induction n with
  | zero => rfl
  | succ n ih =>
    rw [Function.iterate_succ_apply', ih]
    rfl

/-- Claim C9: `operator bool` is true exactly when the path is non-empty, and
`getPath` returns the empty path exactly when the object is invalid — in
particular on a moved-from source. -/
theorem c9_isValid_getPath (s : PipeState) :
    (NamedPipe.isValid s = true ↔ NamedPipe.getPath s ≠ "")
    ∧ (NamedPipe.getPath s = "" ↔ NamedPipe.isValid s = false)
    ∧ NamedPipe.getPath (NamedPipe.moveConstruct s).2 = ""
    ∧ NamedPipe.isValid (NamedPipe.moveConstruct s).2 = false := by
  unfold NamedPipe.isValid NamedPipe.getPath
  refine ⟨?_, ?_, rfl, rfl⟩
  · cases hE : s.path.isEmpty with
    | false => simpa [hE] using (string_isEmpty_false_iff s.path).mp hE
    | true => simpa [hE] using (String.isEmpty_iff s.path).mp hE
  · cases hE : s.path.isEmpty with
    | false => simpa [hE] using (string_isEmpty_false_iff s.path).mp hE
    | true => simpa [hE] using (String.isEmpty_iff s.path).mp hE

/-- Claim C10: in the POSIX `write`, the `::write` result is checked only for
negativity: once the open succeeded, any non-negative result — also a partial
write transferring fewer than `messageSize` bytes — is reported as success,
with exactly one `::write` issued and no retry of any remainder. -/
theorem c10_partial_write_success (openOk : Nat → Bool) (msz : Nat)
    (w e T : Int) (j : Nat) (hOpen : writeOpenLoop openOk 0 T = some j)
    (hw : 0 ≤ w) :
    NamedPipe.write openOk msz w e T = (Except.ok (), 1) := by
  unfold NamedPipe.write
  rw [hOpen]
  simp
  omega

/-- Witness for C10: a write of a 10-byte message where `::write` transfers
only 3 bytes; the call still reports success after that single write. -/
theorem c10_partial_write_success_witness :
    writeOpenLoop (fun _ : Nat => true) 0 500 = some 0
    ∧ (0 : Int) ≤ 3
    ∧ (3 : Int).toNat < 10
    ∧ NamedPipe.write (fun _ => true) 10 3 5 500 = (Except.ok (), 1) := by
  have hopen : writeOpenLoop (fun _ : Nat => true) 0 500 = some 0 := by
    unfold writeOpenLoop; simp
  exact ⟨hopen, by decide, by decide,
    c10_partial_write_success (fun _ => true) 10 3 5 500 0 hopen (by decide)⟩

end NPipe
